import Mathlib

/-!
Shallow embedding of the deep-research agent (muthuspark/deep-research-agent).

The language-model collaborator (`ai_provider.generate_object`), the search
collaborator (`firecrawl.search`) and the tokenizer (`tiktoken` encoder) are
external effects; they are modelled as fields of an `Env` record.  A Python
exception is modelled as `Except.error`; the fuel argument of the recursive
orchestrator counts nested `deep_research` invocations (running out of fuel
yields `none`, which never happens when the fuel is at least the depth).
-/

namespace DeepResearch

/-- `SerpQuery` from src/deep_research.py (a NamedTuple). -/
structure SerpQuery where
  query : String
  research_goal : String
deriving DecidableEq

/-- `ResearchResult` dataclass from src/deep_research.py. -/
structure ResearchResult where
  learnings : List String
  visited_urls : List String
deriving DecidableEq

/-- One item of the search collaborator's `data` list; `none` models a
missing dictionary key. -/
structure SearchItem where
  url : Option String
  markdown : Option String
deriving DecidableEq

/-- The dictionary returned by `firecrawl.search`. -/
structure SearchResult where
  data : List SearchItem
deriving DecidableEq

/-- Parsed collaborator output for the serp-queries schema; `none` models a
missing key in the returned mapping. -/
structure RawQueryItem where
  query : Option String
  research_goal : Option String
deriving DecidableEq

/-- The mapping returned by `generate_object` for the planner call site. -/
structure RawQueriesObj where
  queries : Option (List RawQueryItem)
deriving DecidableEq

/-- The mapping returned by `generate_object` for the distiller call site. -/
structure RawDistillObj where
  learnings : Option (List String)
  follow_up_questions : Option (List String)
deriving DecidableEq

/-- The mapping returned by `generate_object` for the report call site. -/
structure RawReportObj where
  report_markdown : Option String
deriving DecidableEq

/-- The mapping returned by `generate_object` for the answer call site. -/
structure RawAnswerObj where
  exact_answer : Option String
deriving DecidableEq

/-- External collaborators.  Each `gen...` field is one `generate_object`
call site (given the user prompt and the bounds that appear in the schema);
`search` is `firecrawl.search`; `encode` is the tiktoken encoder, exposed as
the token count of a character sequence.  `Except.error` models a raised
exception. -/
structure Env where
  encode : List Char → Nat
  genQueriesObj : String → Nat → Except String RawQueriesObj
  genDistillObj : String → Nat → Nat → Except String RawDistillObj
  genReportObj : String → Except String RawReportObj
  genAnswerObj : String → Except String RawAnswerObj
  search : String → Nat → Except String SearchResult

/-- `AIProvider.trim_prompt` from src/ai_providers.py, over the character
sequence of the Python string.  `enc` is `self.encoder.encode` composed with
`len`. -/
def trim_prompt (enc : List Char → Nat) (prompt : List Char)
    (context_size : Nat) : List Char :=
  if prompt.isEmpty then []
  else
    let tokens := enc prompt
    if tokens ≤ context_size then prompt
    else
      let overflow_tokens := tokens - context_size
      let target_length : Int := (prompt.length : Int) - (overflow_tokens : Int) * 3
      if target_length < 140 then prompt.take 140
      else prompt.take target_length.toNat

/-- `trim_prompt` lifted back to `String`. -/
def trimPromptStr (enc : List Char → Nat) (s : String) (context_size : Nat) : String :=
  String.mk (trim_prompt enc s.data context_size)

/-- The user prompt built by `generate_serp_queries` (lines 24-28). -/
def serpQueriesPrompt (query : String) (num_queries : Nat)
    (learnings : List String) : String :=
  let learnings_text :=
    if learnings.isEmpty then ""
    else "\n\nHere are some learnings from previous research, use them to generate more specific queries: "
      ++ String.intercalate " " learnings
  "Given the following prompt from the user, generate a list of SERP queries to research the topic. Return a maximum of "
    ++ toString num_queries
    ++ " queries, but feel free to return less if the original prompt is clear. Make sure each query is unique and not similar to each other: <prompt>"
    ++ query ++ "</prompt>" ++ learnings_text

/-- Extraction of one raw item, as `SerpQuery(q["query"], q["research_goal"])`
on line 56: a missing key raises `KeyError`. -/
def serpQueryOfRaw (q : RawQueryItem) : Except String SerpQuery :=
  match q.query, q.research_goal with
  | some qs, some g => Except.ok ⟨qs, g⟩
  | none, _ => Except.error "KeyError: query"
  | some _, none => Except.error "KeyError: research_goal"

/-- The comprehension `[SerpQuery(q["query"], q["research_goal"]) for q in
queries]` of line 56 (a raised `KeyError` propagates). -/
def serpQueriesOfRaw : List RawQueryItem → Except String (List SerpQuery)
  | [] => Except.ok []
  | q :: rest => do
    let s ← serpQueryOfRaw q
    let ss ← serpQueriesOfRaw rest
    Except.ok (s :: ss)

/-- `generate_serp_queries` from src/deep_research.py (lines 17-56):
asks the collaborator, reads `result.get("queries", [])[:num_queries]`, and
builds a `SerpQuery` from each item. -/
def generate_serp_queries (env : Env) (query : String) (num_queries : Nat)
    (learnings : List String) : Except String (List SerpQuery) := do
  let result ← env.genQueriesObj (serpQueriesPrompt query num_queries learnings) num_queries
  let queries := (result.queries.getD []).take num_queries
  serpQueriesOfRaw queries

/-- The dictionary returned by `process_serp_result`. -/
structure DistillResult where
  learnings : List String
  follow_up_questions : List String
deriving DecidableEq

/-- Lines 67-72 of src/deep_research.py: keep each item whose `markdown`
entry is present and truthy (non-empty), trimmed to 25000 tokens. -/
def extractContents (env : Env) (search_result : SearchResult) : List String :=
  search_result.data.filterMap fun item =>
    match item.markdown with
    | some md => if md = "" then none else some (trimPromptStr env.encode md 25000)
    | none => none

/-- The user prompt built by `process_serp_result` (lines 79-83). -/
def serpResultPrompt (query : String) (contents : List String)
    (num_learnings : Nat) : String :=
  let contents_text := String.intercalate "\n"
    (contents.map fun content => "<content>\n" ++ content ++ "\n</content>")
  "Given the following contents from a SERP search for the query <query>"
    ++ query
    ++ "</query>, generate a list of learnings from the contents. Return a maximum of "
    ++ toString num_learnings
    ++ " learnings, but feel free to return less if the contents are clear. Make sure each learning is unique and not similar to each other. The learnings should be concise and to the point, as detailed and information dense as possible. Make sure to include any entities like people, places, companies, products, things, etc in the learnings, as well as any exact metrics, numbers, or dates. The learnings will be used to research the topic further.\n\n<contents>"
    ++ contents_text ++ "</contents>"

/-- Lines 76-107 of `process_serp_result`: nothing to distill when the
contents are empty, otherwise one collaborator call whose `learnings` and
`follow_up_questions` are read with `result.get(..., [])` and are NOT
truncated to the requested bounds. -/
def processContents (env : Env) (query : String) (contents : List String)
    (num_learnings num_follow_up_questions : Nat) : Except String DistillResult :=
  if contents.isEmpty then Except.ok ⟨[], []⟩
  else do
    let result ← env.genDistillObj
      (trimPromptStr env.encode (serpResultPrompt query contents num_learnings) 128000)
      num_learnings num_follow_up_questions
    Except.ok ⟨result.learnings.getD [], result.follow_up_questions.getD []⟩

/-- `process_serp_result` from src/deep_research.py (lines 58-107). -/
def process_serp_result (env : Env) (query : String)
    (search_result : SearchResult) (num_learnings : Nat := 3)
    (num_follow_up_questions : Nat := 3) : Except String DistillResult :=
  processContents env query (extractContents env search_result)
    num_learnings num_follow_up_questions

/-- Python's `set` union with deterministic (first-occurrence) order: the
result of folding `set.update` over `xs` starting from the set of `acc`.
Mirrors `all_learnings.update(...)` in `deep_research` (lines 137-147);
list order stands in for Python's unspecified set iteration order, so
set-level statements are phrased via `List.toFinset`. -/
def setUnion (acc xs : List String) : List String :=
  xs.foldl (fun a x => if x ∈ a then a else a ++ [x]) acc

/-- One step of the merge loop in `deep_research` (lines 140-147): an
exception result is skipped, a `ResearchResult` is folded by set union. -/
def mergeStep (acc : List String × List String)
    (r : Except String ResearchResult) : List String × List String :=
  match r with
  | Except.error _ => acc
  | Except.ok rr => (setUnion acc.1 rr.learnings, setUnion acc.2 rr.visited_urls)

/-- The merge of branch results in `deep_research` (lines 136-152):
`all_learnings = set(learnings)`, `all_urls = set(visited_urls)`, then each
branch result is folded in, and lists are returned. -/
def combineResults (learnings visited_urls : List String)
    (results : List (Except String ResearchResult)) : ResearchResult :=
  let merged := results.foldl mergeStep (setUnion [] learnings, setUnion [] visited_urls)
  ⟨merged.1, merged.2⟩

/-- The `next_query` f-string of `process_single_query` (lines 191-194),
including `.strip()`. -/
def nextQueryText (research_goal : String) (follow_up_questions : List String) : String :=
  ("\n            Previous research goal: " ++ research_goal
    ++ "\n            Follow-up research directions: "
    ++ String.intercalate " " follow_up_questions
    ++ "\n            ").trim

/-- URL extraction of `process_single_query` (lines 168-171): keep each
item whose `url` entry is present and truthy. -/
def newUrlsOf (search_result : SearchResult) : List String :=
  search_result.data.filterMap fun item =>
    match item.url with
    | some url => if url = "" then none else some url
    | none => none

/-- Lines 180-207 of `process_single_query`: extend the priors with the
branch's findings, then either recurse (depth > 1, with halved breadth and
decremented depth) or return the extended state. -/
def branchRecurseOrFinish
    (recurse : String → Nat → Nat → List String → List String →
      Option (Except String ResearchResult))
    (sq : SerpQuery) (breadth depth : Nat) (learnings visited_urls : List String)
    (new_urls : List String) (processed : DistillResult) :
    Option (Except String ResearchResult) :=
  let current_learnings := learnings ++ processed.learnings
  let current_urls := visited_urls ++ new_urls
  if 1 < depth then
    recurse (nextQueryText sq.research_goal processed.follow_up_questions)
      (max 1 (breadth / 2)) (depth - 1) current_learnings current_urls
  else
    some (Except.ok ⟨current_learnings, current_urls⟩)

/-- Lines 174-207 of `process_single_query`: distill the search outcome
(`num_follow_up_questions = max(1, breadth // 2)`), then
`branchRecurseOrFinish`. -/
def branchAfterSearch (env : Env)
    (recurse : String → Nat → Nat → List String → List String →
      Option (Except String ResearchResult))
    (sq : SerpQuery) (breadth depth : Nat) (learnings visited_urls : List String)
    (search_result : SearchResult) : Option (Except String ResearchResult) :=
  match process_serp_result env sq.query search_result 3 (max 1 (breadth / 2)) with
  | Except.error e => some (Except.error e)
  | Except.ok processed =>
    branchRecurseOrFinish recurse sq breadth depth learnings visited_urls
      (newUrlsOf search_result) processed

/-- The body of the `try:` block of `process_single_query` (lines 163-207),
parameterised by the recursive `deep_research` call.  `none` means the fuel
of `recurse` ran out (a modelling artifact only); `some (Except.error e)`
means the body raised `e`. -/
def branchBodyWith (env : Env)
    (recurse : String → Nat → Nat → List String → List String →
      Option (Except String ResearchResult))
    (sq : SerpQuery) (breadth depth : Nat) (learnings visited_urls : List String) :
    Option (Except String ResearchResult) :=
  match env.search sq.query 5 with
  | Except.error e => some (Except.error e)
  | Except.ok search_result =>
    branchAfterSearch env recurse sq breadth depth learnings visited_urls search_result

/-- The `except Exception` boundary of `process_single_query`
(lines 209-211): a raised exception becomes the prior state. -/
def catchBranch (learnings visited_urls : List String)
    (body : Option (Except String ResearchResult)) : Option ResearchResult :=
  match body with
  | none => none
  | some (Except.error _) => some ⟨learnings, visited_urls⟩
  | some (Except.ok r) => some r

/-- `process_single_query` (lines 154-211), parameterised by the recursive
call: any exception of the body is caught and converted into returning the
prior `learnings`/`visited_urls`. -/
def processSingleQueryWith (env : Env)
    (recurse : String → Nat → Nat → List String → List String →
      Option (Except String ResearchResult))
    (sq : SerpQuery) (breadth depth : Nat) (learnings visited_urls : List String) :
    Option ResearchResult :=
  catchBranch learnings visited_urls
    (branchBodyWith env recurse sq breadth depth learnings visited_urls)

/-- The per-query fan-out of `deep_research` (lines 129-134): every branch
is run and its `ResearchResult` collected (`asyncio.gather`); `none` only
when some branch ran out of fuel. -/
def collectBranches (env : Env)
    (recurse : String → Nat → Nat → List String → List String →
      Option (Except String ResearchResult)) :
    List SerpQuery → Nat → Nat → List String → List String →
      Option (List ResearchResult)
  | [], _, _, _, _ => some []
  | sq :: rest, breadth, depth, learnings, visited_urls =>
    match processSingleQueryWith env recurse sq breadth depth learnings visited_urls,
      collectBranches env recurse rest breadth depth learnings visited_urls with
    | some r, some rs => some (r :: rs)
    | _, _ => none

/-- Lines 128-152 of `deep_research`: run all branches and merge their
results with the priors. -/
def stepAfterPlan (env : Env)
    (recurse : String → Nat → Nat → List String → List String →
      Option (Except String ResearchResult))
    (serp_queries : List SerpQuery) (breadth depth : Nat)
    (learnings visited_urls : List String) : Option (Except String ResearchResult) :=
  match collectBranches env recurse serp_queries breadth depth learnings visited_urls with
  | none => none
  | some results =>
    some (Except.ok (combineResults learnings visited_urls (results.map Except.ok)))

/-- One level of `deep_research` (lines 109-152), parameterised by the
recursive call used inside the branches.  A raised exception of
`generate_serp_queries` propagates (there is no `try` around line 126). -/
def deepResearchStep (env : Env)
    (recurse : String → Nat → Nat → List String → List String →
      Option (Except String ResearchResult))
    (query : String) (breadth depth : Nat) (learnings visited_urls : List String) :
    Option (Except String ResearchResult) :=
  match generate_serp_queries env query breadth learnings with
  | Except.error e => some (Except.error e)
  | Except.ok serp_queries =>
    stepAfterPlan env recurse serp_queries breadth depth learnings visited_urls

/-- `deep_research` (lines 109-152) with fuel counting nested recursive
invocations: fuel `0` allows no recursive call from the branches. -/
def deepResearchF (env : Env) :
    Nat → String → Nat → Nat → List String → List String →
      Option (Except String ResearchResult)
  | 0, query, breadth, depth, learnings, visited_urls =>
    deepResearchStep env (fun _ _ _ _ _ => none) query breadth depth learnings visited_urls
  | (fuel + 1), query, breadth, depth, learnings, visited_urls =>
    deepResearchStep env (fun q b d l u => deepResearchF env fuel q b d l u)
      query breadth depth learnings visited_urls

/-- The recursive continuation available to a branch at a given fuel. -/
def recurseOf (env : Env) :
    Nat → String → Nat → Nat → List String → List String →
      Option (Except String ResearchResult)
  | 0 => fun _ _ _ _ _ => none
  | (fuel + 1) => fun q b d l u => deepResearchF env fuel q b d l u

/-- `process_single_query` at a given fuel. -/
def processSingleQueryF (env : Env) (fuel : Nat) (sq : SerpQuery)
    (breadth depth : Nat) (learnings visited_urls : List String) :
    Option ResearchResult :=
  processSingleQueryWith env (recurseOf env fuel) sq breadth depth learnings visited_urls

theorem deepResearchF_eq_step (env : Env) (fuel : Nat) (query : String)
    (breadth depth : Nat) (learnings visited_urls : List String) :
    deepResearchF env fuel query breadth depth learnings visited_urls
      = deepResearchStep env (recurseOf env fuel) query breadth depth learnings visited_urls := by
  cases fuel <;> rfl

/-- The prompt of `write_final_report` (lines 220-230). -/
def reportPrompt (prompt : String) (learnings : List String) : String :=
  let learnings_text := String.intercalate "\n"
    (learnings.map fun learning => "<learning>\n" ++ learning ++ "\n</learning>")
  "Given the following prompt from the user, write a final report on the topic using the learnings from research. Make it as detailed as possible, aim for 3 or more pages, include ALL the learnings from research:\n\n<prompt>"
    ++ prompt
    ++ "</prompt>\n\nHere are all the learnings from previous research:\n\n<learnings>\n"
    ++ learnings_text ++ "\n</learnings>"

/-- The sources section appended by `write_final_report` (line 248). -/
def sourcesSection (visited_urls : List String) : String :=
  "\n\n## Sources\n\n"
    ++ String.intercalate "\n" (visited_urls.map fun url => "- " ++ url)

/-- `write_final_report` (lines 213-250): the collaborator's
`report_markdown` (default `""`) with the sources section appended. -/
def write_final_report (env : Env) (prompt : String)
    (learnings visited_urls : List String) : Except String String := do
  let result ← env.genReportObj
    (trimPromptStr env.encode (reportPrompt prompt learnings) 128000)
  Except.ok ((result.report_markdown.getD "") ++ sourcesSection visited_urls)

/-- The prompt of `write_final_answer` (lines 258-268). -/
def answerPrompt (prompt : String) (learnings : List String) : String :=
  let learnings_text := String.intercalate "\n"
    (learnings.map fun learning => "<learning>\n" ++ learning ++ "\n</learning>")
  "Given the following prompt from the user, write a final answer on the topic using the learnings from research. Follow the format specified in the prompt. Do not yap or babble or include any other text than the answer besides the format specified in the prompt. Keep the answer as concise as possible - usually it should be just a few words or maximum a sentence. Try to follow the format specified in the prompt (for example, if the prompt is using Latex, the answer should be in Latex. If the prompt gives multiple answer choices, the answer should be one of the choices).\n\n<prompt>"
    ++ prompt
    ++ "</prompt>\n\nHere are all the learnings from research on the topic that you can use to help answer the prompt:\n\n<learnings>\n"
    ++ learnings_text ++ "\n</learnings>"

/-- `write_final_answer` (lines 252-283). -/
def write_final_answer (env : Env) (prompt : String)
    (learnings : List String) : Except String String := do
  let result ← env.genAnswerObj
    (trimPromptStr env.encode (answerPrompt prompt learnings) 128000)
  Except.ok (result.exact_answer.getD "")

/-- The keyword parameters accepted by `deep_research` (signature,
src/deep_research.py lines 109-115). -/
def deep_research_param_names : List String :=
  ["query", "breadth", "depth", "learnings", "visited_urls"]

/-- The keyword arguments passed to `deep_research` by `main`
(src/main.py lines 145-151). -/
def main_research_call_kwargs : List String :=
  ["query", "breadth", "depth", "prioritize_recent", "days_back"]

/-- Keyword arguments of a call that the callee's signature does not
accept (Python raises `TypeError` at the first one, before the body runs). -/
def unexpectedKwargs (params kwargs : List String) : List String :=
  kwargs.filter fun k => !(params.contains k)

/-- Outcome of `main`'s research phase (src/main.py lines 143-199). -/
inductive RunOutcome
  | reportWritten (report : String)
  | answerWritten (answer : String)
  | errorHandled (msg : String)
deriving DecidableEq

/-- The `deep_research(...)` call of `main` (src/main.py lines 145-151),
including Python's keyword-argument binding check against the callee's
signature.  When binding succeeds the call would run `deep_research` with
empty priors (fuel `depth` is enough, see `deepResearchF_isSome`). -/
def callDeepResearchFromMain (env : Env) (query : String)
    (breadth depth : Nat) : Except String ResearchResult :=
  match unexpectedKwargs deep_research_param_names main_research_call_kwargs with
  | k :: _ =>
    Except.error ("TypeError: deep_research() got an unexpected keyword argument " ++ k)
  | [] =>
    match deepResearchF env depth query breadth depth [] [] with
    | some (Except.ok r) => Except.ok r
    | some (Except.error e) => Except.error e
    | none => Except.error "RecursionError"

/-- The research phase of `main` (src/main.py lines 143-199): the
`try:` block around the `deep_research` call and the report/answer
generation, whose `except Exception` handler (line 196) prints the error
instead of producing a report or answer. -/
def mainResearchStep (env : Env) (query : String) (breadth depth : Nat)
    (is_report : Bool) : RunOutcome :=
  match callDeepResearchFromMain env query breadth depth with
  | Except.error e => RunOutcome.errorHandled e
  | Except.ok result =>
    if is_report then
      match write_final_report env query result.learnings result.visited_urls with
      | Except.error e => RunOutcome.errorHandled e
      | Except.ok report => RunOutcome.reportWritten report
    else
      match write_final_answer env query result.learnings with
      | Except.error e => RunOutcome.errorHandled e
      | Except.ok answer => RunOutcome.answerWritten answer

/-! ### Concrete environments used to evaluate the theorems -/

/-- A benign environment: one planned query, one search hit, one learning. -/
def envDefault : Env where
  encode := fun l => l.length
  genQueriesObj := fun _ _ => Except.ok ⟨some [⟨some "subq", some "goal"⟩]⟩
  genDistillObj := fun _ _ _ => Except.ok ⟨some ["learned-fact"], some ["follow-up"]⟩
  genReportObj := fun _ => Except.ok ⟨some "BODY"⟩
  genAnswerObj := fun _ => Except.ok ⟨some "ANS"⟩
  search := fun _ _ => Except.ok ⟨[⟨some "http-u1", some "md1"⟩]⟩

/-- An environment whose planner collaborator returns an empty mapping. -/
def envNoQueries : Env :=
  { envDefault with genQueriesObj := fun _ _ => Except.ok ⟨none⟩ }

/-- An environment whose planner collaborator returns a malformed item
(missing the `research_goal` key). -/
def envMalformed : Env :=
  { envDefault with genQueriesObj := fun _ _ => Except.ok ⟨some [⟨some "q1", none⟩]⟩ }

/-- An environment whose planner collaborator raises. -/
def envPlannerRaises : Env :=
  { envDefault with genQueriesObj := fun _ _ => Except.error "APIError" }

/-- An environment whose distiller collaborator returns more learnings and
follow-up questions than requested. -/
def envFive : Env :=
  { envDefault with
    genDistillObj := fun _ _ _ =>
      Except.ok ⟨some ["l1", "l2", "l3", "l4", "l5"], some ["f1", "f2"]⟩ }

/-- An environment whose search collaborator raises. -/
def envSearchFails : Env :=
  { envDefault with search := fun _ _ => Except.error "ConnectionError" }

/-- An environment whose distiller collaborator raises. -/
def envDistillRaises : Env :=
  { envDefault with genDistillObj := fun _ _ _ => Except.error "APIError" }

/-- An environment whose distiller collaborator returns a mapping with no
usable fields. -/
def envNoFields : Env :=
  { envDefault with genDistillObj := fun _ _ _ => Except.ok ⟨none, none⟩ }

/-- A search outcome with one content-bearing item. -/
def srOne : SearchResult := ⟨[⟨some "http-a", some "mm"⟩]⟩

/-- A search outcome with no truthy `markdown` entry. -/
def srEmpty : SearchResult := ⟨[⟨some "http-x", none⟩, ⟨none, some ""⟩]⟩

/-- A one-token-per-character tokenizer, used to evaluate `trim_prompt`. -/
def charTokens (l : List Char) : Nat := l.length

/-! ### Set-union algebra of the merge -/

theorem mem_setUnion {y : String} : ∀ (xs acc : List String),
    y ∈ setUnion acc xs ↔ y ∈ acc ∨ y ∈ xs := by
  intro xs
  induction xs with
  | nil => intro acc; simp [setUnion]
  | cons x xs ih =>
    intro acc
    have hstep : setUnion acc (x :: xs)
        = setUnion (if x ∈ acc then acc else acc ++ [x]) xs := rfl
    rw [hstep, ih]
    by_cases hx : x ∈ acc
    · simp only [if_pos hx, List.mem_cons]
      constructor
      · rintro (h | h)
        · exact Or.inl h
        · exact Or.inr (Or.inr h)
      · rintro (h | h | h)
        · exact Or.inl h
        · exact Or.inl (h ▸ hx)
        · exact Or.inr h
    · simp only [if_neg hx, List.mem_append, List.mem_singleton, List.mem_cons]
      tauto

theorem nodup_setUnion : ∀ (xs acc : List String),
    acc.Nodup → (setUnion acc xs).Nodup := by
  intro xs
  induction xs with
  | nil => intro acc h; exact h
  | cons x xs ih =>
    intro acc h
    have hstep : setUnion acc (x :: xs)
        = setUnion (if x ∈ acc then acc else acc ++ [x]) xs := rfl
    rw [hstep]
    apply ih
    by_cases hx : x ∈ acc
    · simpa [hx] using h
    · simp [hx, List.nodup_append, h]

theorem setUnion_toFinset (acc xs : List String) :
    (setUnion acc xs).toFinset = acc.toFinset ∪ xs.toFinset := by
  apply Finset.ext
  intro y
  simp [List.mem_toFinset, mem_setUnion]

/-- The learnings contributed by the successful branch results, as a set. -/
def okLearnFinset : List (Except String ResearchResult) → Finset String
  | [] => ∅
  | Except.error _ :: rs => okLearnFinset rs
  | Except.ok r :: rs => r.learnings.toFinset ∪ okLearnFinset rs

/-- The urls contributed by the successful branch results, as a set. -/
def okUrlFinset : List (Except String ResearchResult) → Finset String
  | [] => ∅
  | Except.error _ :: rs => okUrlFinset rs
  | Except.ok r :: rs => r.visited_urls.toFinset ∪ okUrlFinset rs

theorem foldl_mergeStep_toFinset : ∀ (rs : List (Except String ResearchResult))
    (aL aU : List String),
    ((rs.foldl mergeStep (aL, aU)).1.toFinset = aL.toFinset ∪ okLearnFinset rs
      ∧ (rs.foldl mergeStep (aL, aU)).2.toFinset = aU.toFinset ∪ okUrlFinset rs) := by
  intro rs
  induction rs with
  | nil => intro aL aU; simp [okLearnFinset, okUrlFinset]
  | cons r rs ih =>
    intro aL aU
    cases r with
    | error e =>
      simpa [mergeStep, okLearnFinset, okUrlFinset] using ih aL aU
    | ok rr =>
      have h := ih (setUnion aL rr.learnings) (setUnion aU rr.visited_urls)
      simp only [List.foldl_cons, mergeStep] at *
      rw [h.1, h.2, setUnion_toFinset, setUnion_toFinset]
      constructor
      · rw [okLearnFinset, Finset.union_assoc]
      · rw [okUrlFinset, Finset.union_assoc]

theorem combineResults_learnings_toFinset (l u : List String)
    (rs : List (Except String ResearchResult)) :
    (combineResults l u rs).learnings.toFinset = l.toFinset ∪ okLearnFinset rs := by
  have h := (foldl_mergeStep_toFinset rs (setUnion [] l) (setUnion [] u)).1
  simpa [combineResults, setUnion_toFinset] using h

theorem combineResults_urls_toFinset (l u : List String)
    (rs : List (Except String ResearchResult)) :
    (combineResults l u rs).visited_urls.toFinset = u.toFinset ∪ okUrlFinset rs := by
  have h := (foldl_mergeStep_toFinset rs (setUnion [] l) (setUnion [] u)).2
  simpa [combineResults, setUnion_toFinset] using h

theorem okLearnFinset_perm : ∀ {rs rs' : List (Except String ResearchResult)},
    rs.Perm rs' → okLearnFinset rs = okLearnFinset rs' := by
  intro rs rs' h
  induction h with
  | nil => rfl
  | cons x _ ih => cases x <;> simp [okLearnFinset, ih]
  | swap x y rest =>
    cases x <;> cases y <;> simp [okLearnFinset, Finset.union_left_comm]
  | trans _ _ ih1 ih2 => exact ih1.trans ih2

theorem okUrlFinset_perm : ∀ {rs rs' : List (Except String ResearchResult)},
    rs.Perm rs' → okUrlFinset rs = okUrlFinset rs' := by
  intro rs rs' h
  induction h with
  | nil => rfl
  | cons x _ ih => cases x <;> simp [okUrlFinset, ih]
  | swap x y rest =>
    cases x <;> cases y <;> simp [okUrlFinset, Finset.union_left_comm]
  | trans _ _ ih1 ih2 => exact ih1.trans ih2

theorem okLearnFinset_append (xs ys : List (Except String ResearchResult)) :
    okLearnFinset (xs ++ ys) = okLearnFinset xs ∪ okLearnFinset ys := by
  induction xs with
  | nil => simp [okLearnFinset]
  | cons x xs ih => cases x <;> simp [okLearnFinset, ih, Finset.union_assoc]

theorem okUrlFinset_append (xs ys : List (Except String ResearchResult)) :
    okUrlFinset (xs ++ ys) = okUrlFinset xs ∪ okUrlFinset ys := by
  induction xs with
  | nil => simp [okUrlFinset]
  | cons x xs ih => cases x <;> simp [okUrlFinset, ih, Finset.union_assoc]

theorem foldl_mergeStep_nodup : ∀ (rs : List (Except String ResearchResult))
    (aL aU : List String), aL.Nodup → aU.Nodup →
    ((rs.foldl mergeStep (aL, aU)).1.Nodup ∧ (rs.foldl mergeStep (aL, aU)).2.Nodup) := by
  intro rs
  induction rs with
  | nil => intro aL aU h1 h2; exact ⟨h1, h2⟩
  | cons r rs ih =>
    intro aL aU h1 h2
    cases r with
    | error e => simpa [mergeStep] using ih aL aU h1 h2
    | ok rr =>
      simpa [mergeStep] using
        ih (setUnion aL rr.learnings) (setUnion aU rr.visited_urls)
          (nodup_setUnion _ _ h1) (nodup_setUnion _ _ h2)

theorem combineResults_nodup (l u : List String)
    (rs : List (Except String ResearchResult)) :
    (combineResults l u rs).learnings.Nodup ∧ (combineResults l u rs).visited_urls.Nodup := by
  have h := foldl_mergeStep_nodup rs (setUnion [] l) (setUnion [] u)
    (nodup_setUnion _ _ List.nodup_nil) (nodup_setUnion _ _ List.nodup_nil)
  simpa [combineResults] using h

/-! ### Fuel adequacy: the recursion is bounded by the depth -/

theorem catchBranch_isSome (learnings visited_urls : List String)
    (body : Option (Except String ResearchResult)) (h : body.isSome = true) :
    (catchBranch learnings visited_urls body).isSome = true := by
  cases body with
  | none => simp at h
  | some r => cases r <;> simp [catchBranch]

theorem branchRecurseOrFinish_isSome
    (recurse : String → Nat → Nat → List String → List String →
      Option (Except String ResearchResult))
    (sq : SerpQuery) (breadth depth : Nat) (learnings visited_urls new_urls : List String)
    (processed : DistillResult)
    (h : 1 < depth → ∀ q b l u, (recurse q b (depth - 1) l u).isSome = true) :
    (branchRecurseOrFinish recurse sq breadth depth learnings visited_urls
      new_urls processed).isSome = true := by
  unfold branchRecurseOrFinish
  by_cases hd : 1 < depth
  · simp only [if_pos hd]
    exact h hd _ _ _ _
  · simp only [if_neg hd, Option.isSome_some]

theorem branchBodyWith_isSome (env : Env)
    (recurse : String → Nat → Nat → List String → List String →
      Option (Except String ResearchResult))
    (sq : SerpQuery) (breadth depth : Nat) (learnings visited_urls : List String)
    (h : 1 < depth → ∀ q b l u, (recurse q b (depth - 1) l u).isSome = true) :
    (branchBodyWith env recurse sq breadth depth learnings visited_urls).isSome = true := by
  unfold branchBodyWith
  cases hs : env.search sq.query 5 with
  | error e => rfl
  | ok search_result =>
    show (branchAfterSearch env recurse sq breadth depth learnings visited_urls
      search_result).isSome = true
    unfold branchAfterSearch
    cases hp : process_serp_result env sq.query search_result 3 (max 1 (breadth / 2)) with
    | error e => rfl
    | ok processed =>
      show (branchRecurseOrFinish recurse sq breadth depth learnings visited_urls
        (newUrlsOf search_result) processed).isSome = true
      exact branchRecurseOrFinish_isSome recurse sq breadth depth
        learnings visited_urls (newUrlsOf search_result) processed h

theorem processSingleQueryWith_isSome (env : Env)
    (recurse : String → Nat → Nat → List String → List String →
      Option (Except String ResearchResult))
    (sq : SerpQuery) (breadth depth : Nat) (learnings visited_urls : List String)
    (h : 1 < depth → ∀ q b l u, (recurse q b (depth - 1) l u).isSome = true) :
    (processSingleQueryWith env recurse sq breadth depth learnings visited_urls).isSome = true :=
  catchBranch_isSome learnings visited_urls _
    (branchBodyWith_isSome env recurse sq breadth depth learnings visited_urls h)

theorem collectBranches_isSome (env : Env)
    (recurse : String → Nat → Nat → List String → List String →
      Option (Except String ResearchResult))
    (breadth depth : Nat) (learnings visited_urls : List String) :
    ∀ qs : List SerpQuery,
      (∀ sq ∈ qs,
        (processSingleQueryWith env recurse sq breadth depth learnings visited_urls).isSome = true) →
      ∃ rs, collectBranches env recurse qs breadth depth learnings visited_urls = some rs := by
  intro qs
  induction qs with
  | nil => intro _; exact ⟨[], rfl⟩
  | cons sq rest ih =>
    intro h
    obtain ⟨r, hr⟩ := Option.isSome_iff_exists.mp (h sq (by simp))
    obtain ⟨rs, hrs⟩ := ih fun q hq => h q (by simp [hq])
    exact ⟨r :: rs, by simp [collectBranches, hr, hrs]⟩

theorem deepResearchStep_isSome (env : Env)
    (recurse : String → Nat → Nat → List String → List String →
      Option (Except String ResearchResult))
    (query : String) (breadth depth : Nat) (learnings visited_urls : List String)
    (h : ∀ sq,
      (processSingleQueryWith env recurse sq breadth depth learnings visited_urls).isSome = true) :
    (deepResearchStep env recurse query breadth depth learnings visited_urls).isSome = true := by
  unfold deepResearchStep
  cases hq : generate_serp_queries env query breadth learnings with
  | error e => rfl
  | ok serp_queries =>
    show (stepAfterPlan env recurse serp_queries breadth depth learnings
      visited_urls).isSome = true
    unfold stepAfterPlan
    obtain ⟨rs, hrs⟩ := collectBranches_isSome env recurse breadth depth learnings visited_urls
      serp_queries (fun sq _ => h sq)
    rw [hrs]
    rfl

theorem deepResearchF_isSome (env : Env) : ∀ (fuel : Nat) (query : String)
    (breadth depth : Nat) (learnings visited_urls : List String),
    depth ≤ fuel + 1 →
    (deepResearchF env fuel query breadth depth learnings visited_urls).isSome = true := by
  intro fuel
  induction fuel with
  | zero =>
    intro query breadth depth learnings visited_urls hd
    show (deepResearchStep env _ query breadth depth learnings visited_urls).isSome = true
    apply deepResearchStep_isSome
    intro sq
    apply processSingleQueryWith_isSome
    intro h1
    omega
  | succ f ih =>
    intro query breadth depth learnings visited_urls hd
    show (deepResearchStep env _ query breadth depth learnings visited_urls).isSome = true
    apply deepResearchStep_isSome
    intro sq
    apply processSingleQueryWith_isSome
    intro h1 q b l u
    exact ih q b (depth - 1) l u (by omega)

theorem deepResearchStep_ok (env : Env)
    (recurse : String → Nat → Nat → List String → List String →
      Option (Except String ResearchResult))
    (query : String) (breadth depth : Nat) (learnings visited_urls : List String)
    (qs : List SerpQuery)
    (hq : generate_serp_queries env query breadth learnings = Except.ok qs)
    (h : ∀ sq,
      (processSingleQueryWith env recurse sq breadth depth learnings visited_urls).isSome = true) :
    ∃ r, deepResearchStep env recurse query breadth depth learnings visited_urls
        = some (Except.ok r) := by
  unfold deepResearchStep
  rw [hq]
  show ∃ r, stepAfterPlan env recurse qs breadth depth learnings visited_urls
    = some (Except.ok r)
  unfold stepAfterPlan
  obtain ⟨rs, hrs⟩ := collectBranches_isSome env recurse breadth depth learnings visited_urls
    qs (fun sq _ => h sq)
  rw [hrs]
  exact ⟨_, rfl⟩

theorem recurseOf_isSome (env : Env) (fuel depth : Nat)
    (hfuel : depth ≤ fuel + 1) (h1 : 1 < depth) :
    ∀ q b l u, (recurseOf env fuel q b (depth - 1) l u).isSome = true := by
  intro q b l u
  cases fuel with
  | zero => omega
  | succ f => exact deepResearchF_isSome env f q b (depth - 1) l u (by omega)

theorem deepResearchF_ok (env : Env) (fuel : Nat) (query : String)
    (breadth depth : Nat) (learnings visited_urls : List String)
    (qs : List SerpQuery)
    (hq : generate_serp_queries env query breadth learnings = Except.ok qs)
    (hfuel : depth ≤ fuel + 1) :
    ∃ r, deepResearchF env fuel query breadth depth learnings visited_urls
      = some (Except.ok r) := by
  rw [deepResearchF_eq_step]
  apply deepResearchStep_ok env (recurseOf env fuel) query breadth depth
    learnings visited_urls qs hq
  intro sq
  apply processSingleQueryWith_isSome
  intro h1 q b l u
  exact recurseOf_isSome env fuel depth hfuel h1 q b l u

theorem deepResearchF_no_queries (env : Env) (fuel : Nat) (query : String)
    (breadth depth : Nat) (learnings visited_urls : List String)
    (h : generate_serp_queries env query breadth learnings = Except.ok []) :
    deepResearchF env fuel query breadth depth learnings visited_urls
      = some (Except.ok ⟨setUnion [] learnings, setUnion [] visited_urls⟩) := by
  rw [deepResearchF_eq_step]
  unfold deepResearchStep
  rw [h]
  rfl

/-! ### The claims -/

/-- C1: for every query, breadth ≥ 1, depth ≥ 1 and priors, `deep_research`
terminates and the recursion is at most `depth` levels deep (fuel `depth - 1`
nested recursive calls suffice); a branch at depth 1 makes no recursive call
(fuel 0 suffices); and each recursive call made from a branch at depth > 1
uses `depth - 1` and `max 1 (breadth / 2)` (pinning the continuation to
those values does not change the branch). -/
theorem claim_C1 (env : Env) (query : String) (sq : SerpQuery)
    (breadth depth f : Nat) (learnings visited_urls : List String)
    (hb : 1 ≤ breadth) (hd : 1 ≤ depth) :
    (deepResearchF env (depth - 1) query breadth depth learnings visited_urls).isSome = true
    ∧ (processSingleQueryF env 0 sq breadth 1 learnings visited_urls).isSome = true
    ∧ processSingleQueryF env (f + 1) sq breadth (depth + 1) learnings visited_urls
        = processSingleQueryWith env
            (fun q _ _ l u => deepResearchF env f q (max 1 (breadth / 2)) depth l u)
            sq breadth (depth + 1) learnings visited_urls := by
  refine ⟨?_, ?_, ?_⟩
  · exact deepResearchF_isSome env (depth - 1) query breadth depth learnings visited_urls
      (by omega)
  · exact processSingleQueryWith_isSome env (recurseOf env 0) sq breadth 1
      learnings visited_urls (fun h1 => absurd h1 (by omega))
  · unfold processSingleQueryF processSingleQueryWith
    congr 1

/-- Witness for C1 at a concrete environment and concrete bounds. -/
theorem claim_C1_witness :
    (deepResearchF envDefault 0 "q" 2 1 [] []).isSome = true
    ∧ (processSingleQueryF envDefault 0 ⟨"subq", "goal"⟩ 2 1 [] []).isSome = true
    ∧ processSingleQueryF envDefault 1 ⟨"subq", "goal"⟩ 2 2 [] []
        = processSingleQueryWith envDefault
            (fun q _ _ l u => deepResearchF envDefault 0 q (max 1 (2 / 2)) 1 l u)
            ⟨"subq", "goal"⟩ 2 2 [] [] :=
  claim_C1 envDefault "q" ⟨"subq", "goal"⟩ 2 1 0 [] [] (by decide) (by decide)

/-- C2: the merge of branch results is a value-equality set union over the
branches together with the priors: order-independent under any permutation,
commutative on two branches, idempotent, and deduplicating (a learning
contributed by two branches occurs exactly once). -/
theorem claim_C2 (L U : List String) (A B : ResearchResult) (s : String)
    (rs rs' : List (Except String ResearchResult)) (hperm : rs.Perm rs')
    (hA : s ∈ A.learnings) (hB : s ∈ B.learnings) :
    (combineResults L U rs).learnings.toFinset
        = (combineResults L U rs').learnings.toFinset
    ∧ (combineResults L U rs).visited_urls.toFinset
        = (combineResults L U rs').visited_urls.toFinset
    ∧ (combineResults L U [Except.ok A, Except.ok B]).learnings.toFinset
        = (combineResults L U [Except.ok B, Except.ok A]).learnings.toFinset
    ∧ (combineResults L U [Except.ok A, Except.ok B]).visited_urls.toFinset
        = (combineResults L U [Except.ok B, Except.ok A]).visited_urls.toFinset
    ∧ (combineResults L U [Except.ok A, Except.ok A]).learnings.toFinset
        = (combineResults L U [Except.ok A]).learnings.toFinset
    ∧ (combineResults L U [Except.ok A, Except.ok A]).visited_urls.toFinset
        = (combineResults L U [Except.ok A]).visited_urls.toFinset
    ∧ (combineResults L U [Except.ok A, Except.ok B]).learnings.count s = 1 := by
  refine ⟨?_, ?_, ?_, ?_, ?_, ?_, ?_⟩
  · rw [combineResults_learnings_toFinset, combineResults_learnings_toFinset,
      okLearnFinset_perm hperm]
  · rw [combineResults_urls_toFinset, combineResults_urls_toFinset,
      okUrlFinset_perm hperm]
  · rw [combineResults_learnings_toFinset, combineResults_learnings_toFinset]
    simp only [okLearnFinset]
    ext x
    simp only [Finset.mem_union]
    tauto
  · rw [combineResults_urls_toFinset, combineResults_urls_toFinset]
    simp only [okUrlFinset]
    ext x
    simp only [Finset.mem_union]
    tauto
  · rw [combineResults_learnings_toFinset, combineResults_learnings_toFinset]
    simp only [okLearnFinset]
    ext x
    simp only [Finset.mem_union]
    tauto
  · rw [combineResults_urls_toFinset, combineResults_urls_toFinset]
    simp only [okUrlFinset]
    ext x
    simp only [Finset.mem_union]
    tauto
  · have hnd := (combineResults_nodup L U [Except.ok A, Except.ok B]).1
    have hmem : s ∈ (combineResults L U [Except.ok A, Except.ok B]).learnings := by
      have hfin : s ∈ (combineResults L U [Except.ok A, Except.ok B]).learnings.toFinset := by
        rw [combineResults_learnings_toFinset]
        simp only [okLearnFinset, Finset.mem_union, List.mem_toFinset]
        tauto
      exact List.mem_toFinset.mp hfin
    exact List.count_eq_one_of_mem hnd hmem

/-- Witness for C2 at concrete branch results sharing the learning "x". -/
theorem claim_C2_witness :
    (combineResults ["p"] ["q"] [Except.error "E"]).learnings.toFinset
        = (combineResults ["p"] ["q"] [Except.error "E"]).learnings.toFinset
    ∧ (combineResults ["p"] ["q"] [Except.error "E"]).visited_urls.toFinset
        = (combineResults ["p"] ["q"] [Except.error "E"]).visited_urls.toFinset
    ∧ (combineResults ["p"] ["q"]
          [Except.ok ⟨["x"], ["ua"]⟩, Except.ok ⟨["x", "y"], []⟩]).learnings.toFinset
        = (combineResults ["p"] ["q"]
          [Except.ok ⟨["x", "y"], []⟩, Except.ok ⟨["x"], ["ua"]⟩]).learnings.toFinset
    ∧ (combineResults ["p"] ["q"]
          [Except.ok ⟨["x"], ["ua"]⟩, Except.ok ⟨["x", "y"], []⟩]).visited_urls.toFinset
        = (combineResults ["p"] ["q"]
          [Except.ok ⟨["x", "y"], []⟩, Except.ok ⟨["x"], ["ua"]⟩]).visited_urls.toFinset
    ∧ (combineResults ["p"] ["q"]
          [Except.ok ⟨["x"], ["ua"]⟩, Except.ok ⟨["x"], ["ua"]⟩]).learnings.toFinset
        = (combineResults ["p"] ["q"] [Except.ok ⟨["x"], ["ua"]⟩]).learnings.toFinset
    ∧ (combineResults ["p"] ["q"]
          [Except.ok ⟨["x"], ["ua"]⟩, Except.ok ⟨["x"], ["ua"]⟩]).visited_urls.toFinset
        = (combineResults ["p"] ["q"] [Except.ok ⟨["x"], ["ua"]⟩]).visited_urls.toFinset
    ∧ (combineResults ["p"] ["q"]
        [Except.ok ⟨["x"], ["ua"]⟩, Except.ok ⟨["x", "y"], []⟩]).learnings.count "x" = 1 :=
  claim_C2 ["p"] ["q"] ⟨["x"], ["ua"]⟩ ⟨["x", "y"], []⟩ "x"
    [Except.error "E"] [Except.error "E"] (List.Perm.refl _)
    (by decide) (by decide)

/-- C3: when the planner returns zero queries, `deep_research` is terminal:
it returns the prior learnings and urls (unchanged as sets), for any fuel —
in particular fuel 0, i.e. no recursion; with breadth 4, depth 3 and empty
priors the result is exactly `⟨[], []⟩`. -/
theorem claim_C3 (env : Env) (query : String) (breadth depth fuel : Nat)
    (learnings visited_urls : List String)
    (env4 : Env) (query4 : String) (fuel4 : Nat)
    (h : generate_serp_queries env query breadth learnings = Except.ok [])
    (h4 : generate_serp_queries env4 query4 4 [] = Except.ok []) :
    deepResearchF env fuel query breadth depth learnings visited_urls
        = some (Except.ok ⟨setUnion [] learnings, setUnion [] visited_urls⟩)
    ∧ (setUnion [] learnings).toFinset = learnings.toFinset
    ∧ (setUnion [] visited_urls).toFinset = visited_urls.toFinset
    ∧ deepResearchF env4 fuel4 query4 4 3 [] [] = some (Except.ok ⟨[], []⟩) := by
  refine ⟨deepResearchF_no_queries env fuel query breadth depth learnings visited_urls h,
    ?_, ?_, deepResearchF_no_queries env4 fuel4 query4 4 3 [] [] h4⟩
  · rw [setUnion_toFinset]; simp
  · rw [setUnion_toFinset]; simp

/-- Witness for C3: a planner collaborator returning an empty mapping,
fuel 0 (no recursion available), breadth 4 and depth 3. -/
theorem claim_C3_witness :
    deepResearchF envNoQueries 0 "t" 2 7 ["a", "a"] ["u"]
        = some (Except.ok ⟨setUnion [] ["a", "a"], setUnion [] ["u"]⟩)
    ∧ (setUnion [] ["a", "a"]).toFinset = (["a", "a"] : List String).toFinset
    ∧ (setUnion [] ["u"]).toFinset = (["u"] : List String).toFinset
    ∧ deepResearchF envNoQueries 0 "t" 4 3 [] [] = some (Except.ok ⟨[], []⟩) :=
  claim_C3 envNoQueries "t" 2 7 0 ["a", "a"] ["u"] envNoQueries "t" 0 rfl rfl

/-- C4: an exception anywhere in a branch body is caught at the branch
boundary and the branch returns the prior state; the enclosing call still
returns a merged result (given the planner succeeded and fuel covers the
depth); and a branch contributing exactly the prior state adds nothing to
the merged sets, so siblings are unaffected. -/
theorem claim_C4 (env : Env) (fuel : Nat) (sq : SerpQuery) (breadth depth : Nat)
    (learnings visited_urls : List String) (e : String)
    (env2 : Env) (fuel2 : Nat) (query2 : String) (breadth2 depth2 : Nat)
    (l2 u2 : List String) (qs : List SerpQuery)
    (rsa rsb : List (Except String ResearchResult))
    (herr : branchBodyWith env (recurseOf env fuel) sq breadth depth learnings visited_urls
      = some (Except.error e))
    (hq : generate_serp_queries env2 query2 breadth2 l2 = Except.ok qs)
    (hfuel : depth2 ≤ fuel2 + 1) :
    processSingleQueryF env fuel sq breadth depth learnings visited_urls
        = some ⟨learnings, visited_urls⟩
    ∧ (∃ r, deepResearchF env2 fuel2 query2 breadth2 depth2 l2 u2 = some (Except.ok r))
    ∧ (combineResults learnings visited_urls
          (rsa ++ Except.ok ⟨learnings, visited_urls⟩ :: rsb)).learnings.toFinset
        = (combineResults learnings visited_urls (rsa ++ rsb)).learnings.toFinset
    ∧ (combineResults learnings visited_urls
          (rsa ++ Except.ok ⟨learnings, visited_urls⟩ :: rsb)).visited_urls.toFinset
        = (combineResults learnings visited_urls (rsa ++ rsb)).visited_urls.toFinset := by
  refine ⟨?_, deepResearchF_ok env2 fuel2 query2 breadth2 depth2 l2 u2 qs hq hfuel, ?_, ?_⟩
  · unfold processSingleQueryF processSingleQueryWith
    rw [herr]
    rfl
  · rw [combineResults_learnings_toFinset, combineResults_learnings_toFinset,
      okLearnFinset_append, okLearnFinset_append]
    simp only [okLearnFinset]
    ext x
    simp only [Finset.mem_union]
    tauto
  · rw [combineResults_urls_toFinset, combineResults_urls_toFinset,
      okUrlFinset_append, okUrlFinset_append]
    simp only [okUrlFinset]
    ext x
    simp only [Finset.mem_union]
    tauto

/-- Witness for C4: the search collaborator raises, the branch returns its
priors, and a sibling environment completes with a merged result. -/
theorem claim_C4_witness :
    processSingleQueryF envSearchFails 0 ⟨"subq", "goal"⟩ 2 1 ["a"] ["b"]
        = some ⟨["a"], ["b"]⟩
    ∧ (∃ r, deepResearchF envDefault 0 "q" 2 1 [] [] = some (Except.ok r))
    ∧ (combineResults ["a"] ["b"]
          ([] ++ Except.ok ⟨["a"], ["b"]⟩ :: [])).learnings.toFinset
        = (combineResults ["a"] ["b"] ([] ++ [])).learnings.toFinset
    ∧ (combineResults ["a"] ["b"]
          ([] ++ Except.ok ⟨["a"], ["b"]⟩ :: [])).visited_urls.toFinset
        = (combineResults ["a"] ["b"] ([] ++ [])).visited_urls.toFinset :=
  claim_C4 envSearchFails 0 ⟨"subq", "goal"⟩ 2 1 ["a"] ["b"] "ConnectionError"
    envDefault 0 "q" 2 1 [] [] [⟨"subq", "goal"⟩] [] []
    rfl rfl (by decide)

/-- C5: the CLI entry point passes keyword arguments `prioritize_recent`
and `days_back` that `deep_research` does not accept, so every run that
reaches the research step raises `TypeError` before any research is
performed and ends in the entry point's catch-all handler. -/
theorem claim_C5 (env : Env) (query : String) (breadth depth : Nat)
    (is_report : Bool) :
    unexpectedKwargs deep_research_param_names main_research_call_kwargs
        = ["prioritize_recent", "days_back"]
    ∧ callDeepResearchFromMain env query breadth depth
        = Except.error
            "TypeError: deep_research() got an unexpected keyword argument prioritize_recent"
    ∧ mainResearchStep env query breadth depth is_report
        = RunOutcome.errorHandled
            "TypeError: deep_research() got an unexpected keyword argument prioritize_recent" :=
  ⟨rfl, rfl, rfl⟩

theorem serpQueriesOfRaw_ok : ∀ (L : List RawQueryItem),
    (∀ q ∈ L, q.query.isSome ∧ q.research_goal.isSome) →
    ∃ qs, serpQueriesOfRaw L = Except.ok qs ∧ qs.length = L.length := by
  intro L
  induction L with
  | nil => intro _; exact ⟨[], rfl, rfl⟩
  | cons q rest ih =>
    intro h
    obtain ⟨hq, hg⟩ := h q (by simp)
    obtain ⟨a, ha⟩ := Option.isSome_iff_exists.mp hq
    obtain ⟨g, hgg⟩ := Option.isSome_iff_exists.mp hg
    obtain ⟨qs, hqs, hlen⟩ := ih fun x hx => h x (by simp [hx])
    refine ⟨⟨a, g⟩ :: qs, ?_, by simp [hlen]⟩
    unfold serpQueriesOfRaw serpQueryOfRaw
    rw [ha, hgg, hqs]
    rfl

/-- C6 counterexample: a malformed collaborator structure (an item missing
the `research_goal` key) makes `generate_serp_queries` raise a `KeyError`
instead of returning an empty sequence. -/
theorem claim_C6_counterexample :
    generate_serp_queries envMalformed "topic" 3 []
      = Except.error "KeyError: research_goal" := rfl

/-- C6 (amended): with well-formed collaborator items the planner truncates
to at most `maxQueries` (length `min maxQueries raw.length`), and an empty
or missing `queries` field yields the empty sequence; but a failing
collaborator call propagates its exception (and malformed items raise, see
the counterexample), rather than degrading to an empty sequence. -/
theorem claim_C6 (env : Env) (topic : String) (n : Nat) (learnings : List String)
    (raw : List RawQueryItem) (env2 : Env) (e : String) (env3 : Env)
    (h1 : env.genQueriesObj (serpQueriesPrompt topic n learnings) n
      = Except.ok ⟨some raw⟩)
    (h2 : ∀ q ∈ raw, q.query.isSome ∧ q.research_goal.isSome)
    (h3 : env2.genQueriesObj (serpQueriesPrompt topic n learnings) n = Except.error e)
    (h4 : env3.genQueriesObj (serpQueriesPrompt topic n learnings) n = Except.ok ⟨none⟩) :
    (∃ qs, generate_serp_queries env topic n learnings = Except.ok qs
        ∧ qs.length = min n raw.length)
    ∧ generate_serp_queries env2 topic n learnings = Except.error e
    ∧ generate_serp_queries env3 topic n learnings = Except.ok [] := by
  refine ⟨?_, ?_, ?_⟩
  · obtain ⟨qs, hqs, hlen⟩ := serpQueriesOfRaw_ok (raw.take n)
      fun q hq => h2 q (List.take_subset n raw hq)
    refine ⟨qs, ?_, by rw [hlen, List.length_take]⟩
    unfold generate_serp_queries
    rw [h1]
    exact hqs
  · unfold generate_serp_queries
    rw [h3]
    rfl
  · unfold generate_serp_queries
    rw [h4]
    show serpQueriesOfRaw (List.take n ([] : List RawQueryItem)) = Except.ok []
    rw [List.take_nil]
    rfl

/-- Witness for C6 at concrete environments. -/
theorem claim_C6_witness :
    (∃ qs, generate_serp_queries envDefault "t" 3 [] = Except.ok qs
        ∧ qs.length = min 3 ([⟨some "subq", some "goal"⟩] : List RawQueryItem).length)
    ∧ generate_serp_queries envPlannerRaises "t" 3 [] = Except.error "APIError"
    ∧ generate_serp_queries envNoQueries "t" 3 [] = Except.ok [] :=
  claim_C6 envDefault "t" 3 [] [⟨some "subq", some "goal"⟩]
    envPlannerRaises "APIError" envNoQueries rfl (by decide) rfl rfl

theorem processContents_nonempty (env : Env) (query : String)
    (contents : List String) (n m : Nat) (result : RawDistillObj)
    (h0 : contents ≠ [])
    (h1 : env.genDistillObj
        (trimPromptStr env.encode (serpResultPrompt query contents n) 128000)
        n m = Except.ok result) :
    processContents env query contents n m
      = Except.ok ⟨result.learnings.getD [], result.follow_up_questions.getD []⟩ := by
  have hne : contents.isEmpty = false := by
    cases contents with
    | nil => exact absurd rfl h0
    | cons a rest => rfl
  unfold processContents
  rw [hne, if_neg Bool.false_ne_true, h1]
  rfl

theorem process_serp_result_nonempty (env : Env) (query : String)
    (sr : SearchResult) (n m : Nat) (result : RawDistillObj)
    (h0 : extractContents env sr ≠ [])
    (h1 : env.genDistillObj
        (trimPromptStr env.encode (serpResultPrompt query (extractContents env sr) n) 128000)
        n m = Except.ok result) :
    process_serp_result env query sr n m
      = Except.ok ⟨result.learnings.getD [], result.follow_up_questions.getD []⟩ :=
  processContents_nonempty env query (extractContents env sr) n m result h0 h1

/-- C7 counterexample: the distiller passes through five learnings when
three were requested and two follow-up questions when one was requested —
no truncation happens. -/
theorem claim_C7_counterexample :
    process_serp_result envFive "q" srOne 3 1
        = Except.ok ⟨["l1", "l2", "l3", "l4", "l5"], ["f1", "f2"]⟩
    ∧ ¬ ((["l1", "l2", "l3", "l4", "l5"] : List String).length ≤ 3)
    ∧ ¬ ((["f1", "f2"] : List String).length ≤ 1) :=
  ⟨rfl, by decide, by decide⟩

/-- C7 (amended): for non-empty contents the `DistillResult` contains
exactly the collaborator's `learnings` and `follow_up_questions` lists
(missing fields default to `[]`); no truncation to `maxLearnings` or
`maxFollowUps` is applied, so the bounds hold only when the collaborator
respects them. -/
theorem claim_C7 (env : Env) (query : String) (sr : SearchResult) (n m : Nat)
    (ls fs : List String) (env2 : Env) (sr2 : SearchResult)
    (h0 : extractContents env sr ≠ [])
    (h1 : env.genDistillObj
        (trimPromptStr env.encode (serpResultPrompt query (extractContents env sr) n) 128000)
        n m = Except.ok ⟨some ls, some fs⟩)
    (h2 : extractContents env2 sr2 ≠ [])
    (h3 : env2.genDistillObj
        (trimPromptStr env2.encode (serpResultPrompt query (extractContents env2 sr2) n) 128000)
        n m = Except.ok ⟨none, none⟩) :
    process_serp_result env query sr n m = Except.ok ⟨ls, fs⟩
    ∧ process_serp_result env2 query sr2 n m = Except.ok ⟨[], []⟩ :=
  ⟨process_serp_result_nonempty env query sr n m ⟨some ls, some fs⟩ h0 h1,
    process_serp_result_nonempty env2 query sr2 n m ⟨none, none⟩ h2 h3⟩

/-- Witness for C7 at concrete environments. -/
theorem claim_C7_witness :
    process_serp_result envFive "q" srOne 3 1
        = Except.ok ⟨["l1", "l2", "l3", "l4", "l5"], ["f1", "f2"]⟩
    ∧ process_serp_result envNoFields "q" srOne 3 1 = Except.ok ⟨[], []⟩ :=
  claim_C7 envFive "q" srOne 3 1 ["l1", "l2", "l3", "l4", "l5"] ["f1", "f2"]
    envNoFields srOne (by decide) rfl (by decide) rfl

/-- C8: when the search outcome has no truthy content, the distiller
returns empty learnings and follow-ups immediately, for every environment —
in particular without consulting (or depending on) the collaborator. -/
theorem claim_C8 (env : Env) (query : String) (sr : SearchResult) (n m : Nat)
    (h : ∀ item ∈ sr.data, item.markdown.getD "" = "") :
    process_serp_result env query sr n m = Except.ok ⟨[], []⟩ := by
  have hc : extractContents env sr = [] := by
    unfold extractContents
    rw [List.filterMap_eq_nil_iff]
    intro item hitem
    have hmd := h item hitem
    cases hmm : item.markdown with
    | none => rfl
    | some md =>
      rw [hmm] at hmd
      simp only [Option.getD_some] at hmd
      simp [hmd]
  unfold process_serp_result
  rw [hc]
  rfl

/-- Witness for C8: even an environment whose distiller collaborator would
raise returns the empty result on an empty search outcome. -/
theorem claim_C8_witness :
    process_serp_result envDistillRaises "q" srEmpty 3 3 = Except.ok ⟨[], []⟩ :=
  claim_C8 envDistillRaises "q" srEmpty 3 3 (by decide)

theorem bulletLine_injective : Function.Injective (fun url => "- " ++ url) := by
  intro x y hxy
  have hdata : ("- " ++ x).data = ("- " ++ y).data := congrArg String.data hxy
  rw [String.data_append, String.data_append] at hdata
  have hxd : x.data = y.data := List.append_cancel_left hdata
  cases x with
  | mk xd =>
    cases y with
    | mk yd => exact congrArg String.mk hxd

/-- C9: the string returned by `write_final_report` ends with the Sources
section, which lists one bullet line per visited URL, each URL exactly as
often as it occurs in `visitedUrls` (no deduplication, no sorting), in the
order supplied, regardless of the collaborator's report body. -/
theorem claim_C9 (env : Env) (prompt : String) (learnings visited_urls : List String)
    (r : String) (u : String)
    (h : write_final_report env prompt learnings visited_urls = Except.ok r) :
    (∃ body, r = body ++ sourcesSection visited_urls)
    ∧ sourcesSection visited_urls
        = "\n\n## Sources\n\n"
          ++ String.intercalate "\n" (visited_urls.map fun url => "- " ++ url)
    ∧ (visited_urls.map fun url => "- " ++ url).count ("- " ++ u)
        = visited_urls.count u
    ∧ (visited_urls.map fun url => "- " ++ url).length = visited_urls.length := by
  refine ⟨?_, rfl, ?_, List.length_map _ _⟩
  · unfold write_final_report at h
    cases hrep : env.genReportObj
        (trimPromptStr env.encode (reportPrompt prompt learnings) 128000) with
    | error e =>
      rw [hrep] at h
      have h2 : (Except.error e : Except String String) = Except.ok r := h
      exact absurd h2 (by simp)
    | ok obj =>
      rw [hrep] at h
      have h2 : (Except.ok ((obj.report_markdown.getD "") ++ sourcesSection visited_urls)
          : Except String String) = Except.ok r := h
      refine ⟨obj.report_markdown.getD "", ?_⟩
      exact (Except.ok.inj h2).symm
  · exact List.count_map_of_injective visited_urls _ bulletLine_injective u

/-- Witness for C9: a duplicated URL keeps both bullet lines. -/
theorem claim_C9_witness :
    (∃ body, "BODY" ++ sourcesSection ["a", "b", "a"]
        = body ++ sourcesSection ["a", "b", "a"])
    ∧ sourcesSection ["a", "b", "a"]
        = "\n\n## Sources\n\n"
          ++ String.intercalate "\n" ((["a", "b", "a"] : List String).map fun url => "- " ++ url)
    ∧ ((["a", "b", "a"] : List String).map fun url => "- " ++ url).count ("- " ++ "a")
        = (["a", "b", "a"] : List String).count "a"
    ∧ ((["a", "b", "a"] : List String).map fun url => "- " ++ url).length
        = (["a", "b", "a"] : List String).length :=
  claim_C9 envDefault "p" [] ["a", "b", "a"]
    ("BODY" ++ sourcesSection ["a", "b", "a"]) "a" rfl

set_option maxRecDepth 4000 in
/-- C10 counterexample: with a one-token-per-character tokenizer, a
200-character text trimmed to a 10-token budget comes back as a
140-character prefix of 140 tokens — far over the requested budget, because
the 140-character floor takes precedence. -/
theorem claim_C10_counterexample :
    trim_prompt charTokens (List.replicate 200 'a') 10 = List.replicate 140 'a'
    ∧ ¬ (charTokens (trim_prompt charTokens (List.replicate 200 'a') 10) ≤ 10) :=
  ⟨by decide, by decide⟩

/-- C10 (amended): `trim_prompt` returns the text unchanged when its
tokenized length is within budget, and otherwise a prefix of the text whose
length is at least `min 140 (length text)`; the truncation point is a
3-characters-per-token estimate with a 140-character floor, so the
tokenized length of the result is NOT guaranteed to be within the budget
(see the counterexample). -/
theorem claim_C10 (enc : List Char → Nat) (prompt : List Char) (context_size : Nat)
    (enc2 : List Char → Nat) (prompt2 : List Char) (context2 : Nat)
    (h : enc2 prompt2 ≤ context2) :
    trim_prompt enc2 prompt2 context2 = prompt2
    ∧ trim_prompt enc prompt context_size <+: prompt
    ∧ min 140 prompt.length ≤ (trim_prompt enc prompt context_size).length := by
  refine ⟨?_, ?_, ?_⟩
  · simp only [trim_prompt]
    split
    · next hp => exact (List.isEmpty_iff.mp hp).symm
    · next hp => rfl
  · simp only [trim_prompt]
    split
    · exact List.nil_prefix
    · split
      · exact List.prefix_refl _
      · split
        · exact List.take_prefix _ _
        · exact List.take_prefix _ _
  · simp only [trim_prompt]
    split
    · next hp => rw [List.isEmpty_iff.mp hp]; simp
    · next hp =>
      split
      · next ht => exact min_le_right _ _
      · next ht =>
        split
        · next htl => rw [List.length_take]
        · next htl =>
          rw [List.length_take]
          omega

/-- Witness for C10 at a concrete tokenizer and concrete texts. -/
theorem claim_C10_witness :
    trim_prompt charTokens ['x'] 5 = ['x']
    ∧ trim_prompt charTokens ['a', 'b'] 0 <+: ['a', 'b']
    ∧ min 140 (['a', 'b'] : List Char).length
        ≤ (trim_prompt charTokens ['a', 'b'] 0).length :=
  claim_C10 charTokens ['a', 'b'] 0 charTokens ['x'] 5 (by decide)

end DeepResearch

